import Mathlib

/-!
Verification of the statistics-card renderer (stats_renderer.py).
The renderer's pure layout computations are embedded shallowly:
colors are RGB triples, text measurement is an abstract width
function, and each layout computation is translated directly from
the corresponding Python code.
-/

set_option maxRecDepth 4096

/-- RGB color triple, as used by the COLORS table of the renderer. -/
abbrev Color := Nat × Nat × Nat

def accentBlue : Color := (66, 138, 255)

def accentGreen : Color := (52, 211, 120)

def accentYellow : Color := (250, 190, 40)

def accentOrange : Color := (255, 128, 48)

def accentRed : Color := (248, 80, 80)

def accentPurple : Color := (178, 102, 255)

def accentCyan : Color := (56, 220, 248)

/-- Quota bar color chosen in _render_account_card:
if percent >= 80 green, elif >= 50 yellow, elif >= 20 orange, else red. -/
def quotaBarColor (percent : Int) : Color :=
  if 80 ≤ percent then accentGreen
  else if 50 ≤ percent then accentYellow
  else if 20 ≤ percent then accentOrange
  else accentRed

/-- Quota bar color chosen in render_dashboard (same cascade, second code site). -/
def dashboardQuotaColor (percent : Int) : Color :=
  if 80 ≤ percent then accentGreen
  else if 50 ≤ percent then accentYellow
  else if 20 ≤ percent then accentOrange
  else accentRed

/-- Success-rate color in render_overview:
green if success_rate >= 95, yellow if >= 80, else red. -/
def overviewRateColor (rate : ℚ) : Color :=
  if 95 ≤ rate then accentGreen
  else if 80 ≤ rate then accentYellow
  else accentRed

/-- Success-rate color in render_today (same cascade, second code site). -/
def todayRateColor (rate : ℚ) : Color :=
  if 95 ≤ rate then accentGreen
  else if 80 ≤ rate then accentYellow
  else accentRed

/-- Width of the filled portion drawn by _draw_progress_bar: nothing is
drawn when percent is 0; otherwise the width is max(height, width*percent/100)
(Python int division on nonnegative values is floor division). -/
def progFilledWidth (w h p : Nat) : Nat :=
  if 0 < p then max h (w * p / 100) else 0

/-- Counterexample to C2 as stated: the success-rate color at percent 80 is
the caution yellow, not the healthy green that the uniform 4-tier policy
would assign; the 4-tier scale is not applied to success rates. -/
theorem success_rate_color_counterexample :
    overviewRateColor 80 = accentYellow ∧ quotaBarColor 80 = accentGreen ∧
    overviewRateColor 80 ≠ quotaBarColor 80 := by
  refine ⟨?_, ?_, ?_⟩
  · unfold overviewRateColor
    norm_num
  · unfold quotaBarColor
    norm_num
  · unfold overviewRateColor quotaBarColor accentYellow accentGreen
    norm_num

/-- C2 (amended): remaining-quota percentages use the 4-tier 80/50/20
thresholds, identically in the quota card and the dashboard card, with
79 yielding caution and 80 yielding healthy; success rates instead use a
3-tier 95/80 scale, identically in the overview and today cards. -/
theorem color_thresholds (p : Int) (r : ℚ) :
    (80 ≤ p → quotaBarColor p = accentGreen) ∧
    (50 ≤ p → p < 80 → quotaBarColor p = accentYellow) ∧
    (20 ≤ p → p < 50 → quotaBarColor p = accentOrange) ∧
    (p < 20 → quotaBarColor p = accentRed) ∧
    dashboardQuotaColor p = quotaBarColor p ∧
    quotaBarColor 79 = accentYellow ∧
    quotaBarColor 80 = accentGreen ∧
    (95 ≤ r → overviewRateColor r = accentGreen) ∧
    (80 ≤ r → r < 95 → overviewRateColor r = accentYellow) ∧
    (r < 80 → overviewRateColor r = accentRed) ∧
    todayRateColor r = overviewRateColor r := by
  unfold quotaBarColor dashboardQuotaColor overviewRateColor todayRateColor
  refine ⟨?_, ?_, ?_, ?_, rfl, ?_, ?_, ?_, ?_, ?_, rfl⟩ <;>
    intros <;> split_ifs <;> first | rfl | omega | linarith

/-- Witness for the amended C2 theorem at concrete percentages. -/
theorem color_thresholds_witness :
    quotaBarColor 55 = accentYellow ∧ overviewRateColor 90 = accentYellow := by
  obtain ⟨h1, h2, h3, h4, h5, h6, h7, h8, h9, h10, h11⟩ :=
    color_thresholds 55 90
  exact ⟨h2 (by norm_num) (by norm_num), h9 (by norm_num) (by norm_num)⟩

/-- Counterexample to C3 as stated: at percent 0 the progress bar draws
no filled portion at all, so the filled width is 0, not the minimum cap h. -/
theorem progress_zero_counterexample :
    progFilledWidth 200 10 0 = 0 ∧ progFilledWidth 200 10 0 ≠ 10 := by
  decide

/-- C3 (amended): at percent 0 no fill is drawn (filled width 0); for
positive percent the filled width is max(h, w*p/100), hence at percent 100
it equals the full width w whenever h ≤ w; the filled width is monotonically
non-decreasing in percent. -/
theorem progress_fill_props (w h : Nat) (hw : h ≤ w) :
    progFilledWidth w h 0 = 0 ∧
    (∀ p, 0 < p → progFilledWidth w h p = max h (w * p / 100)) ∧
    progFilledWidth w h 100 = w ∧
    (∀ p₁ p₂, p₁ ≤ p₂ → progFilledWidth w h p₁ ≤ progFilledWidth w h p₂) := by
  refine ⟨by simp [progFilledWidth], fun p hp => by simp [progFilledWidth, hp], ?_, ?_⟩
  · have h100 : w * 100 / 100 = w := Nat.mul_div_cancel _ (by norm_num)
    simp [progFilledWidth, h100, max_eq_right hw]
  · intro p₁ p₂ h12
    rcases Nat.eq_zero_or_pos p₁ with h1 | h1
    · simp [progFilledWidth, h1]
    · have h2 : 0 < p₂ := lt_of_lt_of_le h1 h12
      simp only [progFilledWidth, if_pos h1, if_pos h2]
      exact max_le_max le_rfl (Nat.div_le_div_right (Nat.mul_le_mul_left w h12))

/-- Witness for the amended C3 theorem at a concrete bar geometry. -/
theorem progress_fill_props_witness :
    progFilledWidth 180 10 0 = 0 ∧ progFilledWidth 180 10 100 = 180 := by
  obtain ⟨h0, _, h100, _⟩ := progress_fill_props 180 10 (by norm_num)
  exact ⟨h0, h100⟩

/-- Split a character list at newline characters, with Python split
semantics: the empty text yields one empty paragraph, and every newline
separates two (possibly empty) paragraphs. -/
def splitNl : List Char → List (List Char)
  | [] => [[]]
  | c :: rest =>
    if c = '\n' then [] :: splitNl rest
    else
      match splitNl rest with
      | [] => [[c]]
      | p :: ps => (c :: p) :: ps

/-- A paragraph is blank when stripping whitespace leaves nothing,
modelling the Python test `not paragraph.strip()` in _wrap_text. -/
def isBlankPara (p : List Char) : Bool :=
  p.all fun c => c.isWhitespace

/-- Character-by-character wrapping loop of _wrap_text over one paragraph:
the accumulated current line grows while the measured width of the
candidate stays within the budget; otherwise the nonempty current line is
flushed and a new line starts with the offending character. -/
def wrapChars (m : List Char → Nat) (mw : Nat) : List Char → List Char → List (List Char)
  | cur, [] => if cur = [] then [] else [cur]
  | cur, c :: rest =>
    if m (cur ++ [c]) ≤ mw then wrapChars m mw (cur ++ [c]) rest
    else if cur = [] then wrapChars m mw [c] rest
    else cur :: wrapChars m mw [c] rest

/-- Lines produced by _wrap_text for one paragraph: a blank paragraph
contributes a single empty line, a non-blank one is wrapped char by char. -/
def wrapPara (m : List Char → Nat) (mw : Nat) (p : List Char) : List (List Char) :=
  if isBlankPara p then [[]] else wrapChars m mw [] p

/-- Full _wrap_text: split the text on newlines, wrap each paragraph, and
concatenate the per-paragraph line lists in order. -/
def wrapText (m : List Char → Nat) (mw : Nat) (text : List Char) : List (List Char) :=
  ((splitNl text).map (wrapPara m mw)).flatten

theorem wrapChars_flatten (m : List Char → Nat) (mw : Nat) :
    ∀ (cs cur : List Char), (wrapChars m mw cur cs).flatten = cur ++ cs := by
  intro cs
  induction cs with
  | nil =>
    intro cur
    by_cases h : cur = [] <;> simp [wrapChars, h]
  | cons c rest ih =>
    intro cur
    simp only [wrapChars]
    split_ifs with h1 h2
    · rw [ih]
      simp
    · rw [ih]
      simp [h2]
    · simp [ih]

theorem wrapChars_width (m : List Char → Nat) (mw : Nat) :
    ∀ (cs cur : List Char), (m cur ≤ mw ∨ cur.length ≤ 1) →
      ∀ l ∈ wrapChars m mw cur cs, m l ≤ mw ∨ l.length = 1 := by
  intro cs
  induction cs with
  | nil =>
    intro cur hcur l hl
    by_cases h : cur = []
    · simp [wrapChars, h] at hl
    · simp [wrapChars, h] at hl
      rcases hcur with hc | hc
      · exact Or.inl (by rw [hl]; exact hc)
      · right
        have hpos : 0 < cur.length := List.length_pos.2 h
        rw [hl]
        omega
  | cons c rest ih =>
    intro cur hcur l hl
    simp only [wrapChars] at hl
    split_ifs at hl with h1 h2
    · exact ih (cur ++ [c]) (Or.inl h1) l hl
    · exact ih [c] (Or.inr (by simp)) l hl
    · rcases List.mem_cons.1 hl with hleq | hl
      · rcases hcur with hc | hc
        · exact Or.inl (by rw [hleq]; exact hc)
        · right
          have hpos : 0 < cur.length := List.length_pos.2 h2
          rw [hleq]
          omega
      · exact ih [c] (Or.inr (by simp)) l hl

/-- Counterexample to C4 as stated: a paragraph consisting of a single
space character is replaced by one empty line — its whitespace is dropped,
so concatenating the produced lines does not reproduce the paragraph. -/
theorem wrap_text_blank_counterexample :
    (wrapText (fun l => l.length) 100 [' ']).flatten ≠ [' '] := by
  decide

/-- C4 (amended): for every paragraph that is not whitespace-only,
concatenating its produced lines reproduces the paragraph text exactly;
whitespace-only paragraphs are replaced by a single empty line.  Provided
the empty line measures within the budget, every produced line's measured
width is ≤ the budget except lines consisting of a single character. -/
theorem wrap_text_exact_and_bounded (m : List Char → Nat) (mw : Nat)
    (text : List Char) (h0 : m [] ≤ mw) :
    (∀ p ∈ splitNl text, isBlankPara p = false → (wrapPara m mw p).flatten = p) ∧
    (∀ l ∈ wrapText m mw text, m l ≤ mw ∨ l.length = 1) := by
  constructor
  · intro p _ hb
    rw [wrapPara, if_neg (by simp [hb])]
    exact wrapChars_flatten m mw p []
  · intro l hl
    rcases List.mem_flatten.1 hl with ⟨ls, hls, hlin⟩
    rcases List.mem_map.1 hls with ⟨p, _, rfl⟩
    by_cases hb : isBlankPara p
    · rw [wrapPara, if_pos hb] at hlin
      simp at hlin
      subst hlin
      exact Or.inl h0
    · rw [wrapPara, if_neg hb] at hlin
      exact wrapChars_width m mw p [] (Or.inr (by simp)) l hlin

/-- Witness for the amended C4 theorem on a concrete text and measure. -/
theorem wrap_text_exact_witness :
    (wrapPara (fun l => l.length) 2 ['a', 'b', 'c']).flatten = ['a', 'b', 'c'] :=
  (wrap_text_exact_and_bounded (fun l => l.length) 2 ['a', 'b', 'c'] (by decide)).1
    ['a', 'b', 'c'] (by decide) (by decide)

/-- Truncation step of _render_account_card: drop the last four characters
and append the three-character ellipsis marker. -/
def truncStep (s : List Char) : List Char :=
  s.take (s.length - 4) ++ ['.', '.', '.']

/-- Fuelled unfolding of the truncation while-loop: while the measured
width exceeds the budget and the length exceeds the floor, apply the
truncation step. -/
def truncFuel (m : List Char → Nat) (maxW floor : Nat) : Nat → List Char → List Char
  | 0, s => s
  | fuel + 1, s =>
    if maxW < m s ∧ floor < s.length then truncFuel m maxW floor fuel (truncStep s)
    else s

/-- The truncation loop of _render_account_card, started with fuel equal to
the input length (enough fuel, since the length shrinks by one per step). -/
def truncateToWidth (m : List Char → Nat) (maxW floor : Nat) (s : List Char) : List Char :=
  truncFuel m maxW floor s.length s

theorem truncFuel_post (m : List Char → Nat) (maxW floor : Nat) (hf : 3 ≤ floor) :
    ∀ (fuel : Nat) (s : List Char), s.length ≤ fuel + floor →
      m (truncFuel m maxW floor fuel s) ≤ maxW ∨
      (truncFuel m maxW floor fuel s).length ≤ floor := by
  intro fuel
  induction fuel with
  | zero =>
    intro s hs
    right
    simpa [truncFuel] using hs
  | succ n ih =>
    intro s hs
    rw [truncFuel]
    split_ifs with h
    · apply ih
      have hlen : (truncStep s).length = s.length - 1 := by
        have h4 : 4 ≤ s.length := by omega
        simp [truncStep]
        omega
      omega
    · rcases le_or_lt (m s) maxW with h1 | h1
      · exact Or.inl h1
      · right
        by_contra h2
        exact h ⟨h1, by omega⟩

/-- Counterexample to C5 as stated: with a measure of one unit per
character and a budget of 5, an input of 12 characters (length ≥ the
floor 10, measured width above the budget) is truncated only down to the
floor, and the result still measures 10 > 5 — the truncated-plus-ellipsis
width is not ≤ the budget. -/
theorem truncate_floor_counterexample :
    5 < (List.replicate 12 'a').length ∧
    10 ≤ (List.replicate 12 'a').length ∧
    ¬ (truncateToWidth List.length 5 10 (List.replicate 12 'a')).length ≤ 5 := by
  decide

/-- C5 (amended): for any floor ≥ 3 (the code uses 10 for emails and 8 for
labels), the truncation loop terminates with a result that either measures
within the budget or has been cut down to the length floor. -/
theorem truncate_fits_or_floor (m : List Char → Nat) (maxW floor : Nat)
    (s : List Char) (hf : 3 ≤ floor) :
    m (truncateToWidth m maxW floor s) ≤ maxW ∨
    (truncateToWidth m maxW floor s).length ≤ floor :=
  truncFuel_post m maxW floor hf s.length s (by omega)

/-- Witness for the amended C5 theorem on a concrete input. -/
theorem truncate_fits_or_floor_witness :
    List.length (truncateToWidth List.length 5 10 (List.replicate 12 'a')) ≤ 5 ∨
    (truncateToWidth List.length 5 10 (List.replicate 12 'a')).length ≤ 10 :=
  truncate_fits_or_floor List.length 5 10 (List.replicate 12 'a') (by norm_num)

/-- One quota bucket of an account, as consumed by the quota renderers. -/
structure Quota where
  label : String
  percent : Int
  resetTime : String
deriving DecidableEq

/-- One account of a Quota payload, with the fields the layout uses. -/
structure Account where
  provider : String
  email : String
  error : Option String
  quotas : List Quota
deriving DecidableEq

/-- The error text of an account, empty when the field is absent,
mirroring Python dict access with falsy defaults. -/
def errText (a : Account) : String :=
  match a.error with
  | none => ""
  | some s => s

/-- Python truthiness of account.get("error"): present and nonempty. -/
def hasError (a : Account) : Bool :=
  errText a != ""

/-- calc_account_height of render_quota: 70 for an account in error state,
otherwise 48 plus 44 per quota row. -/
def calcAccountHeight (a : Account) : Nat :=
  if hasError a then 70 else 48 + 44 * a.quotas.length

/-- Append an account to the group of its provider key, keeping first-seen
key order, modelling insertion into a Python dict of lists. -/
def addToGroup (gs : List (String × List Account)) (key : String) (a : Account) :
    List (String × List Account) :=
  match gs with
  | [] => [(key, [a])]
  | (k, l) :: rest =>
    if k = key then (k, l ++ [a]) :: rest else (k, l) :: addToGroup rest key a

/-- Grouping of accounts by provider in render_quota (insertion-ordered). -/
def groupByProvider (accs : List Account) : List (String × List Account) :=
  accs.foldl (fun gs a => addToGroup gs a.provider a) []

/-- Key normalization used when consulting max_render_count:
"gemini" is looked up as "gemini-cli". -/
def configKey (provider : String) : String :=
  if provider = "gemini" then "gemini-cli" else provider

/-- max_render_count.get(config_key, 0): association-list lookup with
default 0. -/
def lookupCap (mrc : List (String × Nat)) (key : String) : Nat :=
  (mrc.lookup key).getD 0

/-- Truncation of one provider group in render_quota: when the configured
cap is positive and smaller than the group size, the group is cut to its
first cap accounts and the omitted count recorded for the footnote. -/
def truncGroup (mrc : List (String × Nat)) (g : String × List Account) :
    String × List Account × Nat :=
  if 0 < lookupCap mrc (configKey g.1) ∧ lookupCap mrc (configKey g.1) < g.2.length
  then (g.1, g.2.take (lookupCap mrc (configKey g.1)),
        g.2.length - lookupCap mrc (configKey g.1))
  else (g.1, g.2, 0)

/-- Truncation pass of render_quota over all provider groups. -/
def applyTrunc (mrc : List (String × Nat)) (gs : List (String × List Account)) :
    List (String × List Account × Nat) :=
  gs.map (truncGroup mrc)

/-- Provider groups as actually rendered by render_quota: grouped by
provider, then truncated by max_render_count when that mapping is present
and nonempty (Python dict truthiness); the third component is the
truncation footnote count (0 when no footnote is drawn). -/
def renderedGroups (accs : List Account) (mrc : Option (List (String × Nat))) :
    List (String × List Account × Nat) :=
  match mrc with
  | none => (groupByProvider accs).map fun g => (g.1, g.2, 0)
  | some m =>
    if m = [] then (groupByProvider accs).map fun g => (g.1, g.2, 0)
    else applyTrunc m (groupByProvider accs)

/-- All accounts appearing in the drawn two-column grid, in order. -/
def drawnAccounts (accs : List Account) (mrc : Option (List (String × Nat))) :
    List Account :=
  ((renderedGroups accs mrc).map fun g => g.2.1).flatten

/-- Row pairing of the two-column grid: accounts are taken two at a time,
an odd last account leaving the right slot empty. -/
def pairRows : List Account → List (Account × Option Account)
  | [] => []
  | [a] => [(a, none)]
  | a :: b :: rest => (a, some b) :: pairRows rest

/-- Height of one grid row: the max of the paired accounts' own heights
(an empty right slot counting 0) plus the 16 units of row spacing. -/
def rowHeight (r : Account × Option Account) : Nat :=
  max (calcAccountHeight r.1) (match r.2 with | some b => calcAccountHeight b | none => 0) + 16

/-- Total content height of one provider group's rows in render_quota. -/
def groupRowsHeight (l : List Account) : Nat :=
  ((pairRows l).map rowHeight).sum

/-- Height budget of one provider group section: 44 for the provider
title, the rows, 32 for the truncation footnote when present, and 12 of
group spacing. -/
def groupSectionHeight (g : String × List Account × Nat) : Nat :=
  44 + groupRowsHeight g.2.1 + (if 0 < g.2.2 then 32 else 0) + 12

/-- Pre-draw base height of render_quota: 90 for the title area, the
provider group sections, and 50 for the bottom tip. -/
def quotaBaseHeight (accs : List Account) (mrc : Option (List (String × Nat))) : Nat :=
  90 + ((renderedGroups accs mrc).map groupSectionHeight).sum + 50

/-- Sample account used in concrete evaluations. -/
def acctA : Account :=
  { provider := "codex", email := "alice", error := none, quotas := [] }

/-- Second sample account of the same provider. -/
def acctB : Account :=
  { provider := "codex", email := "bob", error := none, quotas := [] }

/-- Counterexample to C1 as stated: with two codex accounts and a codex
cap of 1, render_quota re-filters the group — only the first account is
drawn, the second is absent from the grid, and the footnote reports one
omitted account. -/
theorem render_quota_refilter_counterexample :
    acctB ∈ [acctA, acctB] ∧
    drawnAccounts [acctA, acctB] (some [("codex", 1)]) = [acctA] ∧
    acctB ∉ drawnAccounts [acctA, acctB] (some [("codex", 1)]) ∧
    renderedGroups [acctA, acctB] (some [("codex", 1)]) = [("codex", [acctA], 1)] := by
  decide

/-- C1 (amended): render_quota does re-filter using max_render_count:
every rendered provider group is the original group truncated to its
configured cap whenever that cap is positive and below the group size, in
which case the footnote count is the number of omitted accounts;
otherwise the group is rendered whole with no footnote. -/
theorem render_quota_refilters (accs : List Account) (m : List (String × Nat))
    (hm : m ≠ []) :
    ∀ g ∈ renderedGroups accs (some m),
      ∃ orig, (g.1, orig) ∈ groupByProvider accs ∧
        (0 < lookupCap m (configKey g.1) ∧ lookupCap m (configKey g.1) < orig.length →
          g.2.1 = orig.take (lookupCap m (configKey g.1)) ∧
          g.2.2 = orig.length - lookupCap m (configKey g.1)) ∧
        (¬ (0 < lookupCap m (configKey g.1) ∧
            lookupCap m (configKey g.1) < orig.length) →
          g.2.1 = orig ∧ g.2.2 = 0) := by
  intro g hg
  rw [renderedGroups, if_neg hm] at hg
  unfold applyTrunc at hg
  rcases List.mem_map.1 hg with ⟨x, hx, hfx⟩
  unfold truncGroup at hfx
  split_ifs at hfx with h
  · subst hfx
    exact ⟨x.2, hx, fun _ => ⟨rfl, rfl⟩, fun hc => absurd h hc⟩
  · subst hfx
    exact ⟨x.2, hx, fun hc => absurd hc h, fun _ => ⟨rfl, rfl⟩⟩

/-- Witness for the amended C1 theorem on the two-account example. -/
theorem render_quota_refilters_witness :
    ∃ orig, ("codex", orig) ∈ groupByProvider [acctA, acctB] ∧
      (0 < lookupCap [("codex", 1)] (configKey "codex") ∧
          lookupCap [("codex", 1)] (configKey "codex") < orig.length →
        [acctA] = orig.take (lookupCap [("codex", 1)] (configKey "codex")) ∧
        1 = orig.length - lookupCap [("codex", 1)] (configKey "codex")) ∧
      (¬ (0 < lookupCap [("codex", 1)] (configKey "codex") ∧
          lookupCap [("codex", 1)] (configKey "codex") < orig.length) →
        [acctA] = orig ∧ 1 = 0) :=
  render_quota_refilters [acctA, acctB] [("codex", 1)] (by decide)
    ("codex", [acctA], 1) (by decide)

/-- Sample account in error state (for concrete evaluations). -/
def acctErr : Account :=
  { provider := "claude", email := "err", error := some "token expired", quotas := [] }

/-- Sample account with one quota row (for concrete evaluations). -/
def acctQ : Account :=
  { provider := "claude", email := "q", error := none,
    quotas := [{ label := "5h", percent := 50, resetTime := "12:00" }] }

/-- C6: a single provider group of 5 accounts pairs into 3 rows with the
last right slot empty, the group content height is the sum over rows of
the max of the paired accounts' heights plus the fixed 16-unit per-row
spacing, and an account in error state is shorter than an account with at
least one quota row. -/
theorem quota_grid_five_rows (a1 a2 a3 a4 a5 e q : Account)
    (he : hasError e = true) (hq : hasError q = false)
    (hn : 1 ≤ q.quotas.length) :
    pairRows [a1, a2, a3, a4, a5] = [(a1, some a2), (a3, some a4), (a5, none)] ∧
    groupRowsHeight [a1, a2, a3, a4, a5] =
      (max (calcAccountHeight a1) (calcAccountHeight a2) + 16) +
      (max (calcAccountHeight a3) (calcAccountHeight a4) + 16) +
      (calcAccountHeight a5 + 16) ∧
    calcAccountHeight e < calcAccountHeight q := by
  refine ⟨rfl, ?_, ?_⟩
  · simp only [groupRowsHeight, pairRows, List.map, rowHeight, List.sum_cons,
      List.sum_nil]
    omega
  · simp only [calcAccountHeight, he, hq, if_true, if_false, Bool.false_eq_true]
    omega

/-- Witness for the C6 theorem at concrete accounts. -/
theorem quota_grid_five_rows_witness :
    calcAccountHeight acctErr < calcAccountHeight acctQ :=
  (quota_grid_five_rows acctA acctB acctA acctB acctA acctErr acctQ
    (by decide) (by decide) (by decide)).2.2

/-- Final drawing-cursor position of render_overview in logical units
(scale factored out): 260 units of fixed chrome above the variable
sections, then the API list (header 28, per-row 32 over at most 8 rows,
trailing 8), the OAuth block (header 28, 26 per provider), and the
query-time block (8 + 20) when a query time string is present. -/
def overviewFinalY (n : Nat) (auth : Option Nat) (q : Bool) : Nat :=
  260 + (if 0 < n then 36 + 32 * min n 8 else 0)
      + (match auth with | none => 0 | some p => 28 + 26 * p)
      + (if q then 28 else 0)

/-- Pre-draw base height of render_overview in logical units: 320 fixed,
40 + 36 per drawn API row when the list is nonempty, 60 + 28 per provider
when auth_info is present, and 50 reserved for the query time. -/
def overviewBaseHeight (n : Nat) (auth : Option Nat) : Nat :=
  370 + (if 0 < n then 40 + 36 * min n 8 else 0)
      + (match auth with | none => 0 | some p => 60 + 28 * p)

/-- Output pixel height of render_overview at supersample factor s: the
canvas (base height) is cropped to the final cursor plus 16 of padding,
clamped below by 100 logical units, then downscaled by s. -/
def overviewOutHeightPx (s n : Nat) (auth : Option Nat) (q : Bool) : Nat :=
  (max (min ((overviewFinalY n auth q + 16) * s) (overviewBaseHeight n auth * s))
    (100 * s)) / s

theorem min_mul_right_nat (a b s : Nat) : min (a * s) (b * s) = min a b * s := by
  rcases le_total a b with h | h
  · rw [min_eq_left (Nat.mul_le_mul_right s h), min_eq_left h]
  · rw [min_eq_right (Nat.mul_le_mul_right s h), min_eq_right h]

theorem max_mul_right_nat (a b s : Nat) : max (a * s) (b * s) = max a b * s := by
  rcases le_total a b with h | h
  · rw [max_eq_right (Nat.mul_le_mul_right s h), max_eq_right h]
  · rw [max_eq_left (Nat.mul_le_mul_right s h), max_eq_left h]

theorem overviewOutHeightPx_eq (s : Nat) (hs : 0 < s) (n : Nat)
    (auth : Option Nat) (q : Bool) :
    overviewOutHeightPx s n auth q =
      max (min (overviewFinalY n auth q + 16) (overviewBaseHeight n auth)) 100 := by
  rw [overviewOutHeightPx, min_mul_right_nat, max_mul_right_nat,
    Nat.mul_div_cancel _ hs]

theorem overviewFinalY_mono_n (auth : Option Nat) (q : Bool) {n₁ n₂ : Nat}
    (h : n₁ ≤ n₂) : overviewFinalY n₁ auth q ≤ overviewFinalY n₂ auth q := by
  rcases auth with _ | p <;>
    simp only [overviewFinalY] <;> split_ifs <;> omega

theorem overviewBaseHeight_mono_n (auth : Option Nat) {n₁ n₂ : Nat}
    (h : n₁ ≤ n₂) : overviewBaseHeight n₁ auth ≤ overviewBaseHeight n₂ auth := by
  rcases auth with _ | p <;>
    simp only [overviewBaseHeight] <;> split_ifs <;> omega

/-- C7: for any supersample factor, the output height of render_overview
is monotonically non-decreasing in the number of API entries (0..8) and in
the presence of auth_info, all other payload shape parameters held fixed. -/
theorem overview_height_monotone (s : Nat) (hs : 0 < s) (q : Bool)
    (p n n₁ n₂ : Nat) (h12 : n₁ ≤ n₂) (_h8 : n₂ ≤ 8) (auth : Option Nat) :
    overviewOutHeightPx s n₁ auth q ≤ overviewOutHeightPx s n₂ auth q ∧
    overviewOutHeightPx s n none q ≤ overviewOutHeightPx s n (some p) q := by
  rw [overviewOutHeightPx_eq s hs, overviewOutHeightPx_eq s hs,
    overviewOutHeightPx_eq s hs, overviewOutHeightPx_eq s hs]
  constructor
  · exact max_le_max
      (min_le_min (by have := overviewFinalY_mono_n auth q h12; omega)
        (overviewBaseHeight_mono_n auth h12)) le_rfl
  · refine max_le_max (min_le_min ?_ ?_) le_rfl
    · simp only [overviewFinalY]
      split_ifs <;> omega
    · simp only [overviewBaseHeight]
      split_ifs <;> omega

/-- Witness for the C7 theorem at concrete shapes. -/
theorem overview_height_monotone_witness :
    overviewOutHeightPx 3 0 none true ≤ overviewOutHeightPx 3 5 none true ∧
    overviewOutHeightPx 3 1 none true ≤ overviewOutHeightPx 3 1 (some 2) true :=
  overview_height_monotone 3 (by norm_num) true 2 1 0 5 (by norm_num)
    (by norm_num) none

/-- One credential row of a Today payload's auth_stats list. -/
structure AuthStat where
  authIndex : String
  requests : Nat
  tokens : String
  failed : Nat
deriving DecidableEq

/-- Credential rows actually drawn by render_today: auth_stats[:8]. -/
def todayAuthRowsDrawn (l : List AuthStat) : List AuthStat :=
  l.take 8

/-- Pre-draw base height of render_today: 240 fixed, 80 for the token
breakdown when present, 50 + 36 per drawn model row (cap 15), 50 + 32 per
drawn credential row (cap 8), 120 for the time-slot chart when the list is
nonempty, and 60 of bottom space. -/
def todayBaseHeight (hasBreakdown : Bool) (nModel nAuth nSlots : Nat) : Nat :=
  240 + (if hasBreakdown then 80 else 0)
      + (if 0 < nModel then 50 + 36 * min nModel 15 else 0)
      + (if 0 < nAuth then 50 + 32 * min nAuth 8 else 0)
      + (if 0 < nSlots then 120 else 0)
      + 60

/-- Sample credential row (for concrete evaluations). -/
def sampleAuth : AuthStat :=
  { authIndex := "cred-1", requests := 3, tokens := "1.2K", failed := 0 }

/-- Counterexample to C8 as stated: with 10 credential entries,
render_today draws only 8 rows, not min(10, 10) = 10, and its height
budget charges 32 × 8, not 32 × min(10, 10). -/
theorem today_auth_cap_counterexample :
    (todayAuthRowsDrawn (List.replicate 10 sampleAuth)).length = 8 ∧
    (todayAuthRowsDrawn (List.replicate 10 sampleAuth)).length ≠ min 10 10 ∧
    todayBaseHeight false 0 10 0 = todayBaseHeight false 0 0 0 + 50 + 32 * 8 ∧
    32 * 8 ≠ 32 * min 10 10 := by
  decide

/-- C8 (amended): render_today draws min(list length, 8) credential rows
— the section's cap is 8 — and the pre-draw height computation budgets
50 + 32 × min(list length, 8) for a nonempty auth_stats section. -/
theorem today_auth_rows_capped_at_eight (l : List AuthStat) (hb : Bool)
    (nm ns : Nat) (h : 0 < l.length) :
    (todayAuthRowsDrawn l).length = min l.length 8 ∧
    todayBaseHeight hb nm l.length ns =
      todayBaseHeight hb nm 0 ns + 50 + 32 * min l.length 8 := by
  constructor
  · simp only [todayAuthRowsDrawn, List.length_take]
    omega
  · simp only [todayBaseHeight]
    split_ifs <;> omega

/-- Witness for the amended C8 theorem on a 9-entry credential list. -/
theorem today_auth_rows_capped_witness :
    (todayAuthRowsDrawn (List.replicate 9 sampleAuth)).length =
      min (List.replicate 9 sampleAuth).length 8 ∧
    todayBaseHeight false 3 (List.replicate 9 sampleAuth).length 4 =
      todayBaseHeight false 3 0 4 + 50 +
        32 * min (List.replicate 9 sampleAuth).length 8 :=
  today_auth_rows_capped_at_eight (List.replicate 9 sampleAuth) false 3 4
    (by simp)

/-- One time-of-day bucket of a Today payload. -/
structure TimeSlot where
  label : String
  count : Nat
deriving DecidableEq

/-- The 4-entry palette indexed per slot in render_today. -/
def slotColors : List Color :=
  [accentBlue, accentCyan, accentPurple, accentOrange]

/-- Palette indices accessed by render_today's time-slot loop: the loop
enumerates every given slot (it does not cap the list at 4), touching
slot_colors[i] for each position i. -/
def slotColorAccesses (slots : List TimeSlot) : List Nat :=
  List.range slots.length

/-- C10: for a Today payload whose time_slots list has at most 4 entries,
every palette index the per-slot drawing loop accesses is within the
4-entry slot_colors palette; the guarantee is conditional on the length
bound because the loop iterates every given slot. -/
theorem today_slot_colors_in_bounds (slots : List TimeSlot)
    (h : slots.length ≤ 4) :
    ∀ i ∈ slotColorAccesses slots,
      i < slotColors.length ∧ (slotColors.get? i).isSome = true := by
  intro i hi
  have hlen : i < slots.length := List.mem_range.1 hi
  have h4 : i < 4 := lt_of_lt_of_le hlen h
  constructor
  · simpa [slotColors] using h4
  · interval_cases i <;> decide

/-- Witness for the C10 theorem at a concrete 4-slot list and index 3. -/
theorem today_slot_colors_in_bounds_witness :
    3 < slotColors.length ∧ (slotColors.get? 3).isSome = true :=
  today_slot_colors_in_bounds
    [⟨"night", 1⟩, ⟨"morning", 2⟩, ⟨"afternoon", 0⟩, ⟨"evening", 5⟩]
    (by decide) 3 (by decide)

/-- Shape of one statistics payload, carrying the kind discriminator and
the shape parameters each card's height computation consumes. -/
structure Payload where
  statsType : String
  nApis : Nat
  authInfo : Option Nat
  hasQueryTime : Bool
  hasBreakdown : Bool
  nModel : Nat
  nAuth : Nat
  nSlots : Nat
  accounts : List Account
  maxRenderCount : Option (List (String × Nat))

/-- A rendered raster image, described by its logical pixel dimensions. -/
structure RenderedImage where
  width : Nat
  height : Nat

/-- render_overview as seen by the dispatcher: a 520-wide card whose
height is the overview output height. -/
def renderOverviewImg (s : Nat) (d : Payload) : RenderedImage :=
  ⟨520, overviewOutHeightPx s d.nApis d.authInfo d.hasQueryTime⟩

/-- render_today as seen by the dispatcher: a 680-wide card allocated at
the today base height. -/
def renderTodayImg (d : Payload) : RenderedImage :=
  ⟨680, todayBaseHeight d.hasBreakdown d.nModel d.nAuth d.nSlots⟩

/-- render_quota as seen by the dispatcher: an 880-wide card allocated at
the quota base height. -/
def renderQuotaImg (d : Payload) : RenderedImage :=
  ⟨880, quotaBaseHeight d.accounts d.maxRenderCount⟩

/-- render_dashboard as seen by the dispatcher: an 800-wide card drawn on
the fixed 5000-unit canvas before cropping. -/
def renderDashboardImg (_d : Payload) : RenderedImage :=
  ⟨800, 5000⟩

/-- The render dispatcher: selects a card renderer by the stats_type
string and returns its image, or none for an unrecognized type. -/
def render (s : Nat) (d : Payload) : Option RenderedImage :=
  if d.statsType = "overview" then some (renderOverviewImg s d)
  else if d.statsType = "today" then some (renderTodayImg d)
  else if d.statsType = "quota" then some (renderQuotaImg d)
  else if d.statsType = "dashboard" then some (renderDashboardImg d)
  else none

/-- C9: render returns a non-null image exactly when the payload's
stats_type is one of the four recognized card kinds, and a null result
(never an exception — the embedding is a total function) otherwise. -/
theorem render_dispatch_total (s : Nat) (d : Payload) :
    (render s d).isSome = true ↔
      d.statsType = "overview" ∨ d.statsType = "today" ∨
      d.statsType = "quota" ∨ d.statsType = "dashboard" := by
  unfold render
  split_ifs <;> simp_all
